import Mathlib

/-!
Shallow embedding of the nano-tournament front-end (a Next.js client).

The repository holds four view components:
* `src/unnamed/part_001` — a WebSocket-driven battle-session screen (namespace `Part001`);
* `src/unnamed/part_002` — a WebSocket-driven battle-session screen with local
  countdown timers, plus a second copy of the landing page (namespace `Part002`);
* `src/frontend/app/battle/[...sessionId]/page.tsx` — a mock-only battle-session
  screen with countdown timers and no WebSocket (namespace `BattleMock`);
* `src/frontend/app/page.tsx` — the landing page (namespace `Landing`).

React `useState` hooks of a component are collected into a `State` structure,
each event handler becomes a function on that structure, REST/WebSocket side
effects become explicit outcome parameters (`FetchRes`, environment records)
and emitted-call lists, and the browser event loop becomes a `step` function
over an explicit event alphabet folded by `run`.
-/

/-- Character class stripped by JavaScript `String.prototype.trim`:
ASCII whitespace plus the no-break space. -/
def isJsWhitespace (c : Char) : Bool :=
  c == ' ' || c == '\t' || c == '\n' || c == '\r' || c == '\x0b' || c == '\x0c' || c == '\xa0'

/-- JavaScript `String.prototype.trim`: drop leading and trailing whitespace. -/
def jsTrim (s : String) : String :=
  String.mk (((s.data.dropWhile isJsWhitespace).reverse.dropWhile isJsWhitespace).reverse)

/-- JavaScript truthiness of a possibly absent string: `undefined` and `""` are falsy. -/
def jsTruthy : Option String → Bool
  | none => false
  | some s => s != ""

/-- The `GameState` union type shared by all battle-session components. -/
inductive GameState where
  | join
  | lobby
  | prompt
  | waiting
  | battle
  | results
  deriving DecidableEq

/-- The `Participant` interface `{ id, name, joinedAt }`; `joinedAt` (a JS `Date`)
is embedded as a millisecond timestamp. -/
structure Participant where
  id : String
  name : String
  joinedAt : Nat
  deriving DecidableEq

/-- The `BattleResults` interface `{ winner_user_id, battle_script, battle_summary }`. -/
structure BattleResults where
  winner_user_id : String
  battle_script : String
  battle_summary : String
  deriving DecidableEq

/-- Payload of a server-pushed `results` WebSocket event, as read by `handleResults`. -/
structure ResultsPayload where
  winner_user_id : String
  battle_script : String
  battle_summary : String
  deriving DecidableEq

/-- Outcome of one `fetch` call: resolved with `response.ok`, resolved with a
non-ok status, or rejected (network error / thrown exception). -/
inductive FetchRes where
  | ok
  | httpError
  | networkError
  deriving DecidableEq

/-- The inline SVG data URI used as the fallback character image in every
`handleCreateCharacter` catch branch. -/
def placeholderImage : String :=
  "data:image/svg+xml,%3Csvg xmlns=\x27http://www.w3.org/2000/svg\x27 width=\x27400\x27 height=\x27400\x27 viewBox=\x270 0 400 400\x27%3E%3Crect width=\x27400\x27 height=\x27400\x27 fill=\x27%23FBF3B9\x27/%3E%3Ctext x=\x27200\x27 y=\x27200\x27 text-anchor=\x27middle\x27 dominant-baseline=\x27middle\x27 font-size=\x2720\x27 fill=\x27%23000\x27%3EGenerated Character%3C/text%3E%3C/svg%3E"

/-- The `params.sessionId` value produced by Next.js routing for the catch-all
route `/battle/[...sessionId]`: an array of path segments, a plain string, or absent. -/
inductive RouteParam where
  | arr (segs : List String)
  | str (s : String)
  | absent
  deriving DecidableEq

/-- Session-id extraction shared by all battle-session components:
`Array.isArray(params.sessionId) ? params.sessionId[0] : params.sessionId`. -/
def sessionIdOf : RouteParam → Option String
  | RouteParam.arr segs => segs.head?
  | RouteParam.str s => some s
  | RouteParam.absent => none

/-- Tag for the `POST /users/` REST call. -/
def userCall : String := "POST /users/"

/-- Tag for the `POST /session/join/(id)` REST call. -/
def joinCall (sid : String) : String := "POST /session/join/" ++ sid

/-- Tag for the `POST /session/` REST call. -/
def createCall : String := "POST /session/"

/-- Tag for the `PUT /session/(id)` REST call. -/
def putSessionCall (sid : Option String) : String := "PUT /session/" ++ sid.getD "undefined"

/-- Tag for the `POST /generate/` REST call. -/
def generateCall : String := "POST /generate/"

/-- Tag for the `api.joinSession` WebSocket emission. -/
def wsJoinCall (sid : String) : String := "ws join_session " ++ sid

/-- Tag for the `api.characterReady` WebSocket emission. -/
def characterReadyCall (sid : Option String) : String := "ws character_ready " ++ sid.getD "undefined"

/-- Tag for the `api.startRound` WebSocket emission. -/
def startRoundCall (sid : String) : String := "ws start_round " ++ sid

namespace Part001

/-- The `useState` hooks of the `BattleSession` component in `src/unnamed/part_001`,
together with the constant `userId` and the URL-derived `sessionId`. -/
structure State where
  gameState : GameState
  playerName : String
  currentPlayer : Option Participant
  participants : List Participant
  isJoining : Bool
  prompt : String
  isCreatingCharacter : Bool
  generatedImage : Option String
  isStartingGame : Bool
  battleResults : Option BattleResults
  isConnected : Bool
  userId : String
  sessionId : Option String
  deriving DecidableEq

/-- `handleRoundStart` (part_001 lines 78-81): unconditionally enter `prompt`. -/
def handleRoundStart (s : State) : State :=
  { s with gameState := GameState.prompt }

/-- `handleAllCharactersReady` (part_001 lines 83-89): `waiting → battle` only. -/
def handleAllCharactersReady (s : State) : State :=
  if s.gameState = GameState.waiting then { s with gameState := GameState.battle } else s

/-- `handleBattleStart` (part_001 lines 91-94): unconditionally enter `battle`. -/
def handleBattleStart (s : State) : State :=
  { s with gameState := GameState.battle }

/-- `handleResults` (part_001 lines 96-104): store the payload fields in
`battleResults`, then enter `results`. -/
def handleResults (p : ResultsPayload) (s : State) : State :=
  { s with
      battleResults := some
        { winner_user_id := p.winner_user_id
          battle_script := p.battle_script
          battle_summary := p.battle_summary }
      gameState := GameState.results }

/-- `handleUserJoined` (part_001 lines 106-119): when `data.user_id` and
`data.name` are truthy, remove any participant with the same id and append the
new one. -/
def handleUserJoined (uid nm : Option String) (now : Nat) (s : State) : State :=
  if jsTruthy uid && jsTruthy nm then
    { s with participants :=
        (s.participants.filter fun p => p.id != uid.getD "") ++
          [{ id := uid.getD "", name := nm.getD "", joinedAt := now }] }
  else s

/-- `handleUserLeft` (part_001 lines 121-124). -/
def handleUserLeft (uid : String) (s : State) : State :=
  { s with participants := s.participants.filter fun p => p.id != uid }

/-- One `Map.set` step of the JavaScript `Map` keyed by participant id:
overwrite in place when the key exists, else append. -/
def mapSet (l : List Participant) (p : Participant) : List Participant :=
  if l.any fun q => q.id == p.id then
    l.map fun q => if q.id == p.id then p else q
  else l ++ [p]

/-- `new Map(prev.map((p) => [p.id, p]))` (part_001 line 129). -/
def buildMap (l : List Participant) : List Participant :=
  l.foldl mapSet []

/-- One loop iteration of `handleParticipants` (part_001 lines 130-134):
`if (!map.has(id)) map.set(id, { id, name: id, joinedAt: new Date() })`. -/
def addIfAbsent (now : Nat) (l : List Participant) (i : String) : List Participant :=
  if l.any fun q => q.id == i then l else l ++ [{ id := i, name := i, joinedAt := now }]

/-- `handleParticipants` (part_001 lines 126-138). -/
def handleParticipants (ids : List String) (now : Nat) (s : State) : State :=
  { s with participants := ids.foldl (addIfAbsent now) (buildMap s.participants) }

/-- `handleError` (part_001 lines 140-143): logs only, no state change. -/
def handleError (s : State) : State := s

/-- Effect at part_001 lines 167-174: in the lobby, de-duplicate and append the
current player to the roster. -/
def lobbyEffect (s : State) : State :=
  match s.gameState, s.currentPlayer with
  | GameState.lobby, some cp =>
      { s with participants := (s.participants.filter fun p => p.id != cp.id) ++ [cp] }
  | _, _ => s

/-- `setIsConnected(true)` after a successful `api.connect` (part_001 lines 51-65). -/
def wsConnect (s : State) : State :=
  { s with isConnected := true }

/-- Resolved outcomes of the REST calls that `handleJoinSession` may issue,
plus the `session_id` of a successful create response and the current time. -/
structure JoinEnv where
  usersFetch : FetchRes
  joinFetch : FetchRes
  createFetch : FetchRes
  createdSessionId : String
  now : Nat
  deriving DecidableEq

/-- State written by `handleJoinSession` on part_001: both the success path
(lines 232-239) and the catch fallback (lines 249-258) set the same player,
enter `lobby`, and `finally` clears `isJoining`. -/
def joinedState (s : State) (now : Nat) : State :=
  { s with
      currentPlayer := some { id := s.userId, name := jsTrim s.playerName, joinedAt := now }
      gameState := GameState.lobby
      isJoining := false }

/-- `handleJoinSession` (part_001 lines 176-262). Returns the final component
state, the list of REST/WebSocket calls issued, and the navigation target of
`window.location.replace` when taken. -/
def handleJoinSession (env : JoinEnv) (s : State) : State × List String × Option String :=
  if jsTrim s.playerName = "" then (s, [], none)
  else
    let st := joinedState s env.now
    match env.usersFetch with
    | FetchRes.networkError => (st, [userCall], none)
    | _ =>
      match s.sessionId with
      | some sid =>
        match env.joinFetch with
        | FetchRes.networkError => (st, [userCall, joinCall sid], none)
        | FetchRes.ok =>
            (st, [userCall, joinCall sid] ++ (if s.isConnected then [wsJoinCall sid] else []),
              none)
        | FetchRes.httpError =>
          match env.createFetch with
          | FetchRes.networkError => (st, [userCall, joinCall sid, createCall], none)
          | FetchRes.httpError => (st, [userCall, joinCall sid, createCall], none)
          | FetchRes.ok =>
            if env.createdSessionId = "" then (st, [userCall, joinCall sid, createCall], none)
            else if env.createdSessionId ≠ sid then
              (st, [userCall, joinCall sid, createCall],
                some ("/battle/" ++ env.createdSessionId))
            else
              (st, [userCall, joinCall sid, createCall] ++
                (if s.isConnected then [wsJoinCall sid] else []), none)
      | none =>
        match env.createFetch with
        | FetchRes.networkError => (st, [userCall, createCall], none)
        | FetchRes.httpError => (st, [userCall, createCall], none)
        | FetchRes.ok =>
          if env.createdSessionId = "" then (st, [userCall, createCall], none)
          else (st, [userCall, createCall], some ("/battle/" ++ env.createdSessionId))

/-- Resolved outcome of the `POST /generate/` call and, on success, the object
URL created from the response blob. -/
structure GenEnv where
  genFetch : FetchRes
  blobUrl : String
  deriving DecidableEq

/-- `handleCreateCharacter` (part_001 lines 264-310): on success store the blob
URL, on any failure store the placeholder image; either way enter `waiting`
and, when connected, emit `api.characterReady`. -/
def handleCreateCharacter (env : GenEnv) (s : State) : State × List String :=
  if jsTrim s.prompt = "" then (s, [])
  else
    let calls := [generateCall] ++ (if s.isConnected then [characterReadyCall s.sessionId] else [])
    match env.genFetch with
    | FetchRes.ok =>
        ({ s with
            generatedImage := some env.blobUrl
            gameState := GameState.waiting
            isCreatingCharacter := false }, calls)
    | _ =>
        ({ s with
            generatedImage := some placeholderImage
            gameState := GameState.waiting
            isCreatingCharacter := false }, calls)

/-- `handleStartGame` (part_001 lines 312-323): guard on a truthy session id and
at least two participants, then emit `api.startRound`. -/
def handleStartGame (s : State) : State × List String :=
  if jsTruthy s.sessionId ∧ 2 ≤ s.participants.length then
    ({ s with isStartingGame := false }, [startRoundCall (s.sessionId.getD "")])
  else (s, [])

/-- Event alphabet of the part_001 screen: the eight WebSocket events, the two
React effects, the user-triggered form handlers, and a timer tick. The
component registers no timer, so `tick` is a no-op in `step`. -/
inductive Event where
  | roundStart
  | allCharactersReady
  | battleStart
  | results (p : ResultsPayload)
  | userJoined (uid nm : Option String) (now : Nat)
  | userLeft (uid : String)
  | sessionParticipants (ids : List String) (now : Nat)
  | socketError
  | lobbyRosterEffect
  | connected
  | tick
  | joinSubmit (env : JoinEnv)
  | createCharacterSubmit (env : GenEnv)
  | startGameClick
  deriving DecidableEq

/-- One event-loop step of the part_001 screen. -/
def step : Event → State → State
  | Event.roundStart, s => handleRoundStart s
  | Event.allCharactersReady, s => handleAllCharactersReady s
  | Event.battleStart, s => handleBattleStart s
  | Event.results p, s => handleResults p s
  | Event.userJoined u n t, s => handleUserJoined u n t s
  | Event.userLeft u, s => handleUserLeft u s
  | Event.sessionParticipants ids t, s => handleParticipants ids t s
  | Event.socketError, s => handleError s
  | Event.lobbyRosterEffect, s => lobbyEffect s
  | Event.connected, s => wsConnect s
  | Event.tick, s => s
  | Event.joinSubmit env, s => (handleJoinSession env s).1
  | Event.createCharacterSubmit env, s => (handleCreateCharacter env s).1
  | Event.startGameClick, s => (handleStartGame s).1

/-- Fold a sequence of events over a state. -/
def run (es : List Event) (s : State) : State :=
  es.foldl (fun t e => step e t) s

/-- Initial hook values of the part_001 component (lines 30-45). -/
def initState (u : String) (param : RouteParam) : State :=
  { gameState := GameState.join
    playerName := ""
    currentPlayer := none
    participants := []
    isJoining := false
    prompt := ""
    isCreatingCharacter := false
    generatedImage := none
    isStartingGame := false
    battleResults := none
    isConnected := false
    userId := u
    sessionId := sessionIdOf param }

/-- The battle summary shown by the render: the results view (part_001 lines
699-742) is rendered only under `gameState === "results" && battleResults`, and
prints `battleResults.battle_summary` verbatim. -/
def renderedBattleSummary (s : State) : Option String :=
  match s.gameState, s.battleResults with
  | GameState.results, some br => some br.battle_summary
  | _, _ => none

/-- Participant ids are pairwise distinct in the displayed roster. -/
def uniqIds (s : State) : Prop :=
  (s.participants.map Participant.id).Nodup

end Part001

namespace Part002

/-- The `useState` hooks of the `BattleSession` component in `src/unnamed/part_002`
(lines 24-47), together with the constant `userId` and the URL-derived `sessionId`. -/
structure State where
  gameState : GameState
  playerName : String
  currentPlayer : Option Participant
  participants : List Participant
  isJoining : Bool
  battleStartTimer : Nat
  prompt : String
  isCreatingCharacter : Bool
  generatedImage : Option String
  waitingTimer : Nat
  battleResults : Option BattleResults
  isConnected : Bool
  userId : String
  realParticipants : List String
  sessionId : Option String
  deriving DecidableEq

/-- `handleRoundStart` (part_002 lines 80-83). -/
def handleRoundStart (s : State) : State :=
  { s with gameState := GameState.prompt }

/-- `handleBattleStart` (part_002 lines 85-88). -/
def handleBattleStart (s : State) : State :=
  { s with gameState := GameState.battle }

/-- `handleResults` (part_002 lines 90-98). -/
def handleResults (p : ResultsPayload) (s : State) : State :=
  { s with
      battleResults := some
        { winner_user_id := p.winner_user_id
          battle_script := p.battle_script
          battle_summary := p.battle_summary }
      gameState := GameState.results }

/-- `handleUserJoined` (part_002 lines 100-106): de-duplicate and append the
joining id to `realParticipants`. -/
def handleUserJoined (uid : String) (s : State) : State :=
  { s with realParticipants := (s.realParticipants.filter fun i => i != uid) ++ [uid] }

/-- `handleUserLeft` (part_002 lines 108-111). -/
def handleUserLeft (uid : String) (s : State) : State :=
  { s with realParticipants := s.realParticipants.filter fun i => i != uid }

/-- The two hard-coded lobby participants (part_002 lines 131-138). -/
def mockParticipants (now : Nat) : List Participant :=
  [{ id := "1", name := "Alex Chen", joinedAt := now - 30000 },
   { id := "2", name := "Maria Garcia", joinedAt := now - 25000 }]

/-- Effect at part_002 lines 129-147: in the lobby, overwrite the displayed
roster with the mock participants plus the current player. -/
def participantsEffect (now : Nat) (s : State) : State :=
  if s.gameState = GameState.lobby then
    { s with participants :=
        mockParticipants now ++ (match s.currentPlayer with | some cp => [cp] | none => []) }
  else s

/-- One execution of the countdown effects (part_002 lines 149-173): in the
lobby the battle-start timer counts down to zero and then enters `prompt`; in
`waiting` the waiting timer counts down to zero and then enters `battle`. -/
def tick (s : State) : State :=
  if s.gameState = GameState.lobby then
    if 0 < s.battleStartTimer then { s with battleStartTimer := s.battleStartTimer - 1 }
    else { s with gameState := GameState.prompt }
  else if s.gameState = GameState.waiting then
    if 0 < s.waitingTimer then { s with waitingTimer := s.waitingTimer - 1 }
    else { s with gameState := GameState.battle }
  else s

/-- `setIsConnected(true)` after a successful `api.connect` (part_002 lines 53-67). -/
def wsConnect (s : State) : State :=
  { s with isConnected := true }

/-- Resolved outcomes of the REST calls that part_002's `handleJoinSession`
may issue, and the current time. -/
structure JoinEnv where
  usersFetch : FetchRes
  putFetch : FetchRes
  createFetch : FetchRes
  now : Nat
  deriving DecidableEq

/-- State written by part_002's `handleJoinSession`: the success path (lines
212-225) and the catch fallback (lines 229-241) set the same player, enter
`lobby`, and `finally` clears `isJoining`. -/
def joinedState (s : State) (now : Nat) : State :=
  { s with
      currentPlayer := some { id := s.userId, name := jsTrim s.playerName, joinedAt := now }
      gameState := GameState.lobby
      isJoining := false }

/-- `handleJoinSession` (part_002 lines 175-242): `PUT /session/(id)`, falling
back to `POST /session/` only when the `PUT` itself rejects; a non-ok final
response throws into the outer catch. Returns the final state and calls issued. -/
def handleJoinSession (env : JoinEnv) (s : State) : State × List String :=
  if jsTrim s.playerName = "" then (s, [])
  else
    let st := joinedState s env.now
    match env.usersFetch with
    | FetchRes.networkError => (st, [userCall])
    | _ =>
      match env.putFetch with
      | FetchRes.ok =>
          (st, [userCall, putSessionCall s.sessionId] ++
            (if s.isConnected then [wsJoinCall (s.sessionId.getD "undefined")] else []))
      | FetchRes.httpError => (st, [userCall, putSessionCall s.sessionId])
      | FetchRes.networkError =>
        match env.createFetch with
        | FetchRes.ok =>
            (st, [userCall, putSessionCall s.sessionId, createCall] ++
              (if s.isConnected then [wsJoinCall (s.sessionId.getD "undefined")] else []))
        | FetchRes.httpError => (st, [userCall, putSessionCall s.sessionId, createCall])
        | FetchRes.networkError => (st, [userCall, putSessionCall s.sessionId, createCall])

/-- Resolved outcome of the `POST /generate/` call and, on success, the
`image_base64` field of the JSON response. -/
structure GenEnv where
  genFetch : FetchRes
  image_base64 : String
  deriving DecidableEq

/-- `handleCreateCharacter` (part_002 lines 244-279): on success store the
base64 data URI, on any failure store the placeholder image; either way enter
`waiting`. -/
def handleCreateCharacter (env : GenEnv) (s : State) : State × List String :=
  if jsTrim s.prompt = "" then (s, [])
  else
    match env.genFetch with
    | FetchRes.ok =>
        ({ s with
            generatedImage := some ("data:image/png;base64," ++ env.image_base64)
            gameState := GameState.waiting
            isCreatingCharacter := false }, [generateCall])
    | _ =>
        ({ s with
            generatedImage := some placeholderImage
            gameState := GameState.waiting
            isCreatingCharacter := false }, [generateCall])

/-- Event alphabet of the part_002 screen: the five registered WebSocket
events, the roster and countdown effects, the connect effect, and the two form
handlers. -/
inductive Event where
  | roundStart
  | battleStart
  | results (p : ResultsPayload)
  | userJoined (uid : String)
  | userLeft (uid : String)
  | rosterEffect (now : Nat)
  | tick
  | connected
  | joinSubmit (env : JoinEnv)
  | createCharacterSubmit (env : GenEnv)
  deriving DecidableEq

/-- One event-loop step of the part_002 screen. -/
def step : Event → State → State
  | Event.roundStart, s => handleRoundStart s
  | Event.battleStart, s => handleBattleStart s
  | Event.results p, s => handleResults p s
  | Event.userJoined u, s => handleUserJoined u s
  | Event.userLeft u, s => handleUserLeft u s
  | Event.rosterEffect t, s => participantsEffect t s
  | Event.tick, s => tick s
  | Event.connected, s => wsConnect s
  | Event.joinSubmit env, s => (handleJoinSession env s).1
  | Event.createCharacterSubmit env, s => (handleCreateCharacter env s).1

/-- Fold a sequence of events over a state. -/
def run (es : List Event) (s : State) : State :=
  es.foldl (fun t e => step e t) s

/-- Initial hook values of the part_002 component (lines 30-47). -/
def initState (u : String) (param : RouteParam) : State :=
  { gameState := GameState.join
    playerName := ""
    currentPlayer := none
    participants := []
    isJoining := false
    battleStartTimer := 5
    prompt := ""
    isCreatingCharacter := false
    generatedImage := none
    waitingTimer := 3
    battleResults := none
    isConnected := false
    userId := u
    realParticipants := []
    sessionId := sessionIdOf param }

/-- The battle summary shown by the render: the results view (part_002 lines
648-687) is rendered only under `gameState === "results" && battleResults`, and
prints `battleResults.battle_summary` verbatim. -/
def renderedBattleSummary (s : State) : Option String :=
  match s.gameState, s.battleResults with
  | GameState.results, some br => some br.battle_summary
  | _, _ => none

end Part002

namespace BattleMock

/-- The `useState` hooks of the mock `BattleSession` component in
`src/frontend/app/battle/[...sessionId]/page.tsx` (lines 26-35). -/
structure State where
  gameState : GameState
  playerName : String
  currentPlayer : Option Participant
  participants : List Participant
  isJoining : Bool
  battleStartTimer : Nat
  prompt : String
  isCreatingCharacter : Bool
  generatedImage : Option String
  waitingTimer : Nat
  sessionId : Option String
  deriving DecidableEq

/-- The four hard-coded lobby participants (battle page lines 40-49). -/
def mockParticipants (now : Nat) : List Participant :=
  [{ id := "1", name := "Alex Chen", joinedAt := now - 30000 },
   { id := "2", name := "Maria Garcia", joinedAt := now - 25000 },
   { id := "3", name := "John Smith", joinedAt := now - 20000 },
   { id := "4", name := "Sarah Kim", joinedAt := now - 15000 }]

/-- Effect at battle page lines 38-55: in the lobby, when a current player
exists, overwrite the roster with the mocks plus the current player. -/
def participantsEffect (now : Nat) (s : State) : State :=
  match s.gameState, s.currentPlayer with
  | GameState.lobby, some cp => { s with participants := mockParticipants now ++ [cp] }
  | _, _ => s

/-- One execution of the countdown effects (battle page lines 57-81), identical
in shape to part_002's. -/
def tick (s : State) : State :=
  if s.gameState = GameState.lobby then
    if 0 < s.battleStartTimer then { s with battleStartTimer := s.battleStartTimer - 1 }
    else { s with gameState := GameState.prompt }
  else if s.gameState = GameState.waiting then
    if 0 < s.waitingTimer then { s with waitingTimer := s.waitingTimer - 1 }
    else { s with gameState := GameState.battle }
  else s

/-- `handleJoinSession` (battle page lines 83-101): no REST call, only a
simulated delay; the new player's id is `Date.now().toString()`. -/
def handleJoinSession (now : Nat) (s : State) : State :=
  if jsTrim s.playerName = "" then s
  else
    { s with
        currentPlayer := some { id := toString now, name := jsTrim s.playerName, joinedAt := now }
        gameState := GameState.lobby
        isJoining := false }

/-- `handleCreateCharacter` (battle page lines 103-118): no REST call; always
stores the placeholder image and enters `waiting`. -/
def handleCreateCharacter (s : State) : State :=
  if jsTrim s.prompt = "" then s
  else
    { s with
        generatedImage := some placeholderImage
        isCreatingCharacter := false
        gameState := GameState.waiting }

/-- Event alphabet of the mock screen. The component registers no WebSocket
handlers, so the server-pushed `roundStart` is a no-op in `step`. -/
inductive Event where
  | tick
  | roundStart
  | rosterEffect (now : Nat)
  | joinSubmit (now : Nat)
  | createCharacterSubmit
  deriving DecidableEq

/-- One event-loop step of the mock screen. -/
def step : Event → State → State
  | Event.tick, s => tick s
  | Event.roundStart, s => s
  | Event.rosterEffect t, s => participantsEffect t s
  | Event.joinSubmit t, s => handleJoinSession t s
  | Event.createCharacterSubmit, s => handleCreateCharacter s

/-- Initial hook values of the mock component (lines 26-35). -/
def initState (param : RouteParam) : State :=
  { gameState := GameState.join
    playerName := ""
    currentPlayer := none
    participants := []
    isJoining := false
    battleStartTimer := 5
    prompt := ""
    isCreatingCharacter := false
    generatedImage := none
    waitingTimer := 3
    sessionId := sessionIdOf param }

end BattleMock

namespace Landing

/-- `handleJoinSession` on the landing page (`src/frontend/app/page.tsx` lines
17-28): reject unless the code has exactly six characters, else navigate to
`/battle/` followed by the uppercased code. Returns the `router.push` target. -/
def handleJoinSession (sessionCode : String) : Option String :=
  if sessionCode.length ≠ 6 then none
  else some ("/battle/" ++ sessionCode.toUpper)

/-- Disabled condition of the Join Battle submit button (page.tsx line 114):
`sessionCode.length !== 6 || isJoining`. -/
def joinDisabled (sessionCode : String) (isJoining : Bool) : Bool :=
  (sessionCode.length != 6) || isJoining

/-- Resolved outcome of the `POST /session/` call, the `session_id` of a
successful response, and the random code drawn in the catch branch. -/
structure CreateEnv where
  createFetch : FetchRes
  serverSessionId : String
  randomCode : String
  deriving DecidableEq

/-- `handleCreateSession` (page.tsx lines 30-59): navigate to the created
session on success; on any failure navigate to a locally generated uppercased
random code. Returns the `router.push` target. -/
def handleCreateSession (env : CreateEnv) : String :=
  match env.createFetch with
  | FetchRes.ok => "/battle/" ++ env.serverSessionId
  | _ => "/battle/" ++ env.randomCode.toUpper

end Landing

/-- A concrete fresh mount of the part_001 screen, used by concrete checks. -/
def Part001.baseState : Part001.State :=
  Part001.initState "user_1_abc" (RouteParam.arr ["ABC123"])

/-- A concrete part_001 state sitting in the `results` view. -/
def Part001.sampleResultsState : Part001.State :=
  { Part001.baseState with
      gameState := GameState.results
      battleResults := some { winner_user_id := "w", battle_script := "scr", battle_summary := "sum" } }

/-- A concrete part_001 state sitting in the `lobby` view. -/
def Part001.sampleLobbyState : Part001.State :=
  { Part001.baseState with gameState := GameState.lobby }

/-- A concrete part_001 state sitting in the `prompt` view with a non-blank prompt. -/
def Part001.samplePromptState : Part001.State :=
  { Part001.baseState with
      gameState := GameState.prompt
      prompt := "a brave knight"
      isConnected := true }

/-- A concrete part_001 state with a whitespace-only player name but a
non-blank prompt. -/
def Part001.blankNameState : Part001.State :=
  { Part001.baseState with playerName := "   ", prompt := "a brave knight" }

/-- A concrete part_001 state of a named player in the `prompt` view with a
whitespace-only prompt. -/
def Part001.blankPromptState : Part001.State :=
  { Part001.baseState with
      gameState := GameState.prompt
      playerName := "Ada"
      currentPlayer := some { id := "user_1_abc", name := "Ada", joinedAt := 3 }
      prompt := " " }

/-- A concrete part_001 state with a non-blank player name. -/
def Part001.namedJoinState : Part001.State :=
  { Part001.baseState with playerName := " Ada " }

/-- A concrete fresh mount of the part_002 screen. -/
def Part002.baseState : Part002.State :=
  Part002.initState "user_2_abc" (RouteParam.arr ["XYZ999"])

/-- A concrete part_002 state in the lobby with the countdown at zero. -/
def Part002.sampleLobbyZero : Part002.State :=
  { Part002.baseState with gameState := GameState.lobby, battleStartTimer := 0 }

/-- A concrete part_002 state in the `prompt` view with a non-blank prompt. -/
def Part002.samplePromptState : Part002.State :=
  { Part002.baseState with gameState := GameState.prompt, prompt := "a dragon" }

/-- A concrete part_002 state sitting in the `results` view. -/
def Part002.sampleResultsState : Part002.State :=
  { Part002.baseState with
      gameState := GameState.results
      battleResults := some { winner_user_id := "w", battle_script := "scr", battle_summary := "sum" } }

/-- A concrete part_002 state with a non-blank player name. -/
def Part002.namedJoinState : Part002.State :=
  { Part002.baseState with playerName := "Bob" }

/-- A concrete fresh mount of the mock battle screen. -/
def BattleMock.baseState : BattleMock.State :=
  BattleMock.initState (RouteParam.arr ["ABC123"])

/-- A concrete mock-screen state in the lobby (countdown still running). -/
def BattleMock.sampleLobbyState : BattleMock.State :=
  { BattleMock.baseState with gameState := GameState.lobby }

/-- A concrete mock-screen state in the lobby with the countdown at zero. -/
def BattleMock.sampleLobbyZero : BattleMock.State :=
  { BattleMock.baseState with gameState := GameState.lobby, battleStartTimer := 0 }

/-- A concrete mock-screen state with a whitespace-only player name but a
non-blank prompt. -/
def BattleMock.blankNameState : BattleMock.State :=
  { BattleMock.baseState with playerName := " \t ", prompt := "a wizard" }

/-- A concrete mock-screen state of a named player in the `prompt` view with a
whitespace-only prompt. -/
def BattleMock.blankPromptState : BattleMock.State :=
  { BattleMock.baseState with
      gameState := GameState.prompt
      playerName := "Eve"
      currentPlayer := some { id := "17", name := "Eve", joinedAt := 17 }
      prompt := "  " }

/-- A concrete mock-screen state in the `prompt` view with a non-blank prompt. -/
def BattleMock.samplePromptState : BattleMock.State :=
  { BattleMock.baseState with gameState := GameState.prompt, prompt := "a wizard" }

/-- Number of roster entries carrying a given participant id. -/
def countWithId (l : List Participant) (uid : String) : Nat :=
  (l.filter fun p => p.id == uid).length

/-- Number of occurrences of a given id in a plain id list. -/
def countOf (l : List String) (uid : String) : Nat :=
  (l.filter fun i => i == uid).length

/-- Deliver a sequence of `user_joined_session` events to the part_002 screen. -/
def Part002.runUserJoined (joins : List String) (s : Part002.State) : Part002.State :=
  joins.foldl (fun t uid => Part002.handleUserJoined uid t) s

/-- Two `user_joined_session` events duplicating the same user id. -/
def Part001.dupJoinEvents : List Part001.Event :=
  [Part001.Event.userJoined (some "u7") (some "Ann") 1,
   Part001.Event.userJoined (some "u7") (some "Ann") 2]

section ListLemmas

variable {α κ : Type}

/-- Filtering keeps key distinctness: the filtered key list is a sublist. -/
theorem nodup_map_of_filter (key : α → κ) (p : α → Bool) {l : List α}
    (h : (l.map key).Nodup) : ((l.filter p).map key).Nodup :=
  List.Nodup.sublist ((List.filter_sublist l).map key) h

/-- Removing every element sharing a key and then appending one element with
that key keeps key distinctness; this is the de-duplication pattern
`[...prev.filter((x) => x.key !== k), fresh]` used by the event handlers. -/
theorem nodup_map_filter_append [BEq κ] [LawfulBEq κ] (key : α → κ) (a : α) {l : List α}
    (h : (l.map key).Nodup) :
    (((l.filter fun x => key x != key a) ++ [a]).map key).Nodup := by
  rw [List.map_append, List.nodup_append]
  refine ⟨nodup_map_of_filter key _ h, List.nodup_singleton _, ?_⟩
  intro x hx hx2
  simp only [List.map_cons, List.map_nil, List.mem_singleton] at hx2
  subst hx2
  obtain ⟨y, hy, hky⟩ := List.mem_map.mp hx
  obtain ⟨hyl, hcond⟩ := List.mem_filter.mp hy
  rw [bne_iff_ne] at hcond
  exact hcond (by rw [hky])

/-- In a list with pairwise-distinct keys, at most one element carries any
given key. -/
theorem length_filter_key_le_one [BEq κ] [LawfulBEq κ] (key : α → κ) (k : κ) :
    ∀ {l : List α}, (l.map key).Nodup → (l.filter fun x => key x == k).length ≤ 1 := by
  intro l
  induction l with
  | nil => intro _; simp
  | cons a t ih =>
    intro h
    rw [List.map_cons, List.nodup_cons] at h
    by_cases hk : (key a == k) = true
    · have hka : key a = k := eq_of_beq hk
      have ht : t.filter (fun x => key x == k) = [] := by
        rw [List.filter_eq_nil_iff]
        intro x hx hxk
        exact h.1 (List.mem_map.mpr ⟨x, hx, by rw [eq_of_beq hxk, hka]⟩)
      simp [List.filter_cons, hk, ht]
    · simp only [List.filter_cons, hk, if_false]
      exact ih h.2

end ListLemmas

/-- The component state produced by part_001's `handleJoinSession` ignores the
fetch outcomes: the guard returns the state unchanged, and every try/catch path
ends in `joinedState`. -/
theorem part001_join_state (env : Part001.JoinEnv) (s : Part001.State) :
    (Part001.handleJoinSession env s).1 =
      if jsTrim s.playerName = "" then s else Part001.joinedState s env.now := by
  obtain ⟨uf, jf, cf, cs, now⟩ := env
  by_cases h : jsTrim s.playerName = ""
  · simp [Part001.handleJoinSession, h]
  · cases hs : s.sessionId <;> cases uf <;> cases jf <;> cases cf <;>
      simp [Part001.handleJoinSession, h, hs, apply_ite Prod.fst]

/-- The component state produced by part_001's `handleCreateCharacter`:
unchanged under the guard, otherwise the image is stored and the view enters
`waiting`. -/
theorem part001_create_state (env : Part001.GenEnv) (s : Part001.State) :
    (Part001.handleCreateCharacter env s).1 =
      if jsTrim s.prompt = "" then s
      else
        { s with
            generatedImage :=
              some (match env.genFetch with
                    | FetchRes.ok => env.blobUrl
                    | _ => placeholderImage)
            gameState := GameState.waiting
            isCreatingCharacter := false } := by
  obtain ⟨gf, bu⟩ := env
  by_cases h : jsTrim s.prompt = ""
  · simp [Part001.handleCreateCharacter, h]
  · cases gf <;> simp [Part001.handleCreateCharacter, h]

/-- The component state produced by part_002's `handleJoinSession` likewise
ignores the fetch outcomes. -/
theorem part002_join_state (env : Part002.JoinEnv) (s : Part002.State) :
    (Part002.handleJoinSession env s).1 =
      if jsTrim s.playerName = "" then s else Part002.joinedState s env.now := by
  obtain ⟨uf, pf, cf, now⟩ := env
  by_cases h : jsTrim s.playerName = ""
  · simp [Part002.handleJoinSession, h]
  · cases uf <;> cases pf <;> cases cf <;>
      simp [Part002.handleJoinSession, h, apply_ite Prod.fst]

/-- The component state produced by part_002's `handleCreateCharacter`. -/
theorem part002_create_state (env : Part002.GenEnv) (s : Part002.State) :
    (Part002.handleCreateCharacter env s).1 =
      if jsTrim s.prompt = "" then s
      else
        { s with
            generatedImage :=
              some (match env.genFetch with
                    | FetchRes.ok => "data:image/png;base64," ++ env.image_base64
                    | _ => placeholderImage)
            gameState := GameState.waiting
            isCreatingCharacter := false } := by
  obtain ⟨gf, ib⟩ := env
  by_cases h : jsTrim s.prompt = ""
  · simp [Part002.handleCreateCharacter, h]
  · cases gf <;> simp [Part002.handleCreateCharacter, h]

/-- A `Map.set` step keeps participant ids pairwise distinct. -/
theorem part001_mapSet_nodup (p : Participant) {l : List Participant}
    (h : (l.map Participant.id).Nodup) :
    ((Part001.mapSet l p).map Participant.id).Nodup := by
  unfold Part001.mapSet
  split
  · have hfun : (Participant.id ∘ fun q => if q.id == p.id then p else q) = Participant.id := by
      funext q
      simp only [Function.comp_apply]
      by_cases hq : (q.id == p.id) = true
      · simp only [hq, if_true]
        exact (eq_of_beq hq).symm
      · simp [hq]
    rw [List.map_map, hfun]
    exact h
  · rename_i hany
    rw [List.map_append, List.nodup_append]
    refine ⟨h, List.nodup_singleton _, ?_⟩
    intro x hx hx2
    simp only [List.map_cons, List.map_nil, List.mem_singleton] at hx2
    subst hx2
    obtain ⟨y, hy, hky⟩ := List.mem_map.mp hx
    exact hany (List.any_eq_true.mpr ⟨y, hy, beq_iff_eq.mpr hky⟩)

/-- Rebuilding the roster through the id-keyed `Map` yields pairwise-distinct ids. -/
theorem part001_buildMap_nodup (l : List Participant) :
    ((Part001.buildMap l).map Participant.id).Nodup := by
  unfold Part001.buildMap
  suffices h : ∀ acc : List Participant, (acc.map Participant.id).Nodup →
      ((l.foldl Part001.mapSet acc).map Participant.id).Nodup by
    exact h [] (by simp)
  induction l with
  | nil => intro acc hacc; exact hacc
  | cons a t ih =>
      intro acc hacc
      exact ih _ (part001_mapSet_nodup a hacc)

/-- The `if (!map.has(id)) map.set(...)` step keeps participant ids pairwise
distinct. -/
theorem part001_addIfAbsent_nodup (now : Nat) (i : String) {l : List Participant}
    (h : (l.map Participant.id).Nodup) :
    ((Part001.addIfAbsent now l i).map Participant.id).Nodup := by
  unfold Part001.addIfAbsent
  split
  · exact h
  · rename_i hany
    rw [List.map_append, List.nodup_append]
    refine ⟨h, List.nodup_singleton _, ?_⟩
    intro x hx hx2
    simp only [List.map_cons, List.map_nil, List.mem_singleton] at hx2
    subst hx2
    obtain ⟨y, hy, hky⟩ := List.mem_map.mp hx
    exact hany (List.any_eq_true.mpr ⟨y, hy, beq_iff_eq.mpr hky⟩)

/-- Folding the `session_participants` id loop keeps ids pairwise distinct. -/
theorem part001_foldAdd_nodup (ids : List String) (now : Nat) :
    ∀ {l : List Participant}, (l.map Participant.id).Nodup →
      ((ids.foldl (Part001.addIfAbsent now) l).map Participant.id).Nodup := by
  induction ids with
  | nil => intro l h; exact h
  | cons i t ih =>
      intro l h
      exact ih (part001_addIfAbsent_nodup now i h)

/-- Every event-loop step of the part_001 screen preserves distinctness of the
displayed participant ids. -/
theorem part001_uniq_step (e : Part001.Event) (s : Part001.State)
    (h : Part001.uniqIds s) : Part001.uniqIds (Part001.step e s) := by
  cases e with
  | roundStart => exact h
  | allCharactersReady =>
      simp only [Part001.step, Part001.handleAllCharactersReady]
      split <;> exact h
  | battleStart => exact h
  | results p => exact h
  | userJoined u n t =>
      simp only [Part001.step, Part001.handleUserJoined]
      split
      · exact nodup_map_filter_append Participant.id
          { id := u.getD "", name := n.getD "", joinedAt := t } h
      · exact h
  | userLeft u => exact nodup_map_of_filter Participant.id _ h
  | sessionParticipants ids t =>
      exact part001_foldAdd_nodup ids t (part001_buildMap_nodup s.participants)
  | socketError => exact h
  | lobbyRosterEffect =>
      simp only [Part001.step, Part001.lobbyEffect]
      split
      · rename_i cp hgs hcp
        exact nodup_map_filter_append Participant.id cp h
      · exact h
  | connected => exact h
  | tick => exact h
  | joinSubmit env =>
      show Part001.uniqIds (Part001.handleJoinSession env s).1
      rw [part001_join_state]
      split <;> exact h
  | createCharacterSubmit env =>
      show Part001.uniqIds (Part001.handleCreateCharacter env s).1
      rw [part001_create_state]
      split <;> exact h
  | startGameClick =>
      simp only [Part001.step, Part001.handleStartGame]
      split <;> exact h

/-- Any event sequence on the part_001 screen preserves distinctness of the
displayed participant ids. -/
theorem part001_uniq_run (es : List Part001.Event) :
    ∀ s : Part001.State, Part001.uniqIds s → Part001.uniqIds (Part001.run es s) := by
  induction es with
  | nil => intro s h; exact h
  | cons e t ih =>
      intro s h
      exact ih _ (part001_uniq_step e s h)

/-- The plain-list form of the de-duplication pattern, used by part_002's
`realParticipants` updates. -/
theorem nodup_filter_append_self {κ : Type} [BEq κ] [LawfulBEq κ] (a : κ) {l : List κ}
    (h : l.Nodup) : ((l.filter fun x => x != a) ++ [a]).Nodup := by
  have h' : (l.map (id : κ → κ)).Nodup := by rw [List.map_id]; exact h
  have := nodup_map_filter_append (id : κ → κ) a h'
  rwa [List.map_id] at this

/-- Folding part_002's `handleUserJoined` over any id sequence preserves
distinctness of `realParticipants`. -/
theorem part002_userJoined_fold_nodup (joins : List String) :
    ∀ s : Part002.State, s.realParticipants.Nodup →
      ((joins.foldl (fun t uid => Part002.handleUserJoined uid t) s).realParticipants).Nodup := by
  induction joins with
  | nil => intro s h; exact h
  | cons j t ih =>
      intro s h
      exact ih _ (nodup_filter_append_self j h)

/-- Every event-loop step of the part_001 screen preserves the invariant that
the `results` view state owns a non-null `battleResults`. -/
theorem part001_inv_step (e : Part001.Event) (s : Part001.State)
    (h : s.gameState = GameState.results → s.battleResults.isSome = true) :
    (Part001.step e s).gameState = GameState.results →
      (Part001.step e s).battleResults.isSome = true := by
  cases e with
  | roundStart => simp [Part001.step, Part001.handleRoundStart]
  | allCharactersReady =>
      simp only [Part001.step, Part001.handleAllCharactersReady]
      split
      · simp
      · exact h
  | battleStart => simp [Part001.step, Part001.handleBattleStart]
  | results p => simp [Part001.step, Part001.handleResults]
  | userJoined u n t =>
      simp only [Part001.step, Part001.handleUserJoined]
      split <;> exact h
  | userLeft u => exact h
  | sessionParticipants ids t => exact h
  | socketError => exact h
  | lobbyRosterEffect =>
      simp only [Part001.step, Part001.lobbyEffect]
      split <;> exact h
  | connected => exact h
  | tick => exact h
  | joinSubmit env =>
      show (Part001.handleJoinSession env s).1.gameState = GameState.results →
        (Part001.handleJoinSession env s).1.battleResults.isSome = true
      rw [part001_join_state]
      split
      · exact h
      · simp [Part001.joinedState]
  | createCharacterSubmit env =>
      show (Part001.handleCreateCharacter env s).1.gameState = GameState.results →
        (Part001.handleCreateCharacter env s).1.battleResults.isSome = true
      rw [part001_create_state]
      split
      · exact h
      · simp
  | startGameClick =>
      simp only [Part001.step, Part001.handleStartGame]
      split <;> exact h

/-- Any event sequence on the part_001 screen preserves the results-view
invariant. -/
theorem part001_inv_run (es : List Part001.Event) :
    ∀ s : Part001.State,
      (s.gameState = GameState.results → s.battleResults.isSome = true) →
      (Part001.run es s).gameState = GameState.results →
        (Part001.run es s).battleResults.isSome = true := by
  induction es with
  | nil => intro s h; exact h
  | cons e t ih =>
      intro s h
      exact ih _ (part001_inv_step e s h)

/-- Every event-loop step of the part_002 screen preserves the invariant that
the `results` view state owns a non-null `battleResults`. -/
theorem part002_inv_step (e : Part002.Event) (s : Part002.State)
    (h : s.gameState = GameState.results → s.battleResults.isSome = true) :
    (Part002.step e s).gameState = GameState.results →
      (Part002.step e s).battleResults.isSome = true := by
  cases e with
  | roundStart => simp [Part002.step, Part002.handleRoundStart]
  | battleStart => simp [Part002.step, Part002.handleBattleStart]
  | results p => simp [Part002.step, Part002.handleResults]
  | userJoined u => exact h
  | userLeft u => exact h
  | rosterEffect t =>
      simp only [Part002.step, Part002.participantsEffect]
      split <;> exact h
  | tick =>
      simp only [Part002.step, Part002.tick]
      split
      · split
        · exact h
        · simp
      · split
        · split
          · exact h
          · simp
        · exact h
  | connected => exact h
  | joinSubmit env =>
      show (Part002.handleJoinSession env s).1.gameState = GameState.results →
        (Part002.handleJoinSession env s).1.battleResults.isSome = true
      rw [part002_join_state]
      split
      · exact h
      · simp [Part002.joinedState]
  | createCharacterSubmit env =>
      show (Part002.handleCreateCharacter env s).1.gameState = GameState.results →
        (Part002.handleCreateCharacter env s).1.battleResults.isSome = true
      rw [part002_create_state]
      split
      · exact h
      · simp

/-- Any event sequence on the part_002 screen preserves the results-view
invariant. -/
theorem part002_inv_run (es : List Part002.Event) :
    ∀ s : Part002.State,
      (s.gameState = GameState.results → s.battleResults.isSome = true) →
      (Part002.run es s).gameState = GameState.results →
        (Part002.run es s).battleResults.isSome = true := by
  induction es with
  | nil => intro s h; exact h
  | cons e t ih =>
      intro s h
      exact ih _ (part002_inv_step e s h)

/-- C1: for every `results` WebSocket event received by the session screens of
part_001 and part_002, the handler stores the payload's `winner_user_id`,
`battle_script` and `battle_summary` in `battleResults`, moves `gameState` to
`results`, and the results view renders `battle_summary` exactly as received. -/
theorem c1_results_event_stores_payload_and_renders_summary
    (p : ResultsPayload) (s1 : Part001.State) (s2 : Part002.State) :
    (Part001.step (Part001.Event.results p) s1).gameState = GameState.results ∧
    (Part001.step (Part001.Event.results p) s1).battleResults =
      some { winner_user_id := p.winner_user_id
             battle_script := p.battle_script
             battle_summary := p.battle_summary } ∧
    Part001.renderedBattleSummary (Part001.step (Part001.Event.results p) s1) =
      some p.battle_summary ∧
    (Part002.step (Part002.Event.results p) s2).gameState = GameState.results ∧
    (Part002.step (Part002.Event.results p) s2).battleResults =
      some { winner_user_id := p.winner_user_id
             battle_script := p.battle_script
             battle_summary := p.battle_summary } ∧
    Part002.renderedBattleSummary (Part002.step (Part002.Event.results p) s2) =
      some p.battle_summary :=
  ⟨rfl, rfl, rfl, rfl, rfl, rfl⟩

/-- C9: when the URL under `/battle/` carries more than one path segment, only
the first segment becomes the session id, and the mounted component state (and
hence every backend call and display reading `sessionId`) is identical to the
one mounted from the first segment alone. -/
theorem c9_only_first_segment_used (u : String) (a : String) (rest : List String) :
    sessionIdOf (RouteParam.arr (a :: rest)) = some a ∧
    sessionIdOf (RouteParam.arr (a :: rest)) = sessionIdOf (RouteParam.arr [a]) ∧
    Part001.initState u (RouteParam.arr (a :: rest)) = Part001.initState u (RouteParam.arr [a]) ∧
    Part002.initState u (RouteParam.arr (a :: rest)) = Part002.initState u (RouteParam.arr [a]) ∧
    BattleMock.initState (RouteParam.arr (a :: rest)) = BattleMock.initState (RouteParam.arr [a]) :=
  ⟨rfl, rfl, rfl, rfl, rfl⟩

/-- C10: submitting the join form with a blank (empty or whitespace-only)
player name, or the character form with a blank prompt, returns before any
state write or network call: the component state is unchanged and no calls are
issued. Stated for part_001's two guarded handlers and the mock screen's two. -/
theorem c10_blank_input_is_noop
    (s : Part001.State) (env : Part001.JoinEnv)
    (t : Part001.State) (envG : Part001.GenEnv)
    (m : BattleMock.State) (n : Nat) (m2 : BattleMock.State)
    (hn : jsTrim s.playerName = "") (hp : jsTrim t.prompt = "")
    (hmn : jsTrim m.playerName = "") (hmp : jsTrim m2.prompt = "") :
    Part001.handleJoinSession env s = (s, [], none) ∧
    Part001.handleCreateCharacter envG t = (t, []) ∧
    BattleMock.handleJoinSession n m = m ∧
    BattleMock.handleCreateCharacter m2 = m2 := by
  refine ⟨?_, ?_, ?_, ?_⟩
  · unfold Part001.handleJoinSession
    rw [if_pos hn]
  · unfold Part001.handleCreateCharacter
    rw [if_pos hp]
  · unfold BattleMock.handleJoinSession
    rw [if_pos hmn]
  · unfold BattleMock.handleCreateCharacter
    rw [if_pos hmp]

/-- Witness for C10: a blank name with a non-blank prompt makes only the join
submit a no-op, and a named player submitting a blank prompt makes only the
character submit a no-op. -/
theorem c10_witness :
    Part001.handleJoinSession
        { usersFetch := FetchRes.ok, joinFetch := FetchRes.ok, createFetch := FetchRes.ok,
          createdSessionId := "S", now := 5 } Part001.blankNameState =
      (Part001.blankNameState, [], none) ∧
    Part001.handleCreateCharacter { genFetch := FetchRes.networkError, blobUrl := "" }
        Part001.blankPromptState = (Part001.blankPromptState, []) ∧
    BattleMock.handleJoinSession 5 BattleMock.blankNameState = BattleMock.blankNameState ∧
    BattleMock.handleCreateCharacter BattleMock.blankPromptState =
      BattleMock.blankPromptState :=
  c10_blank_input_is_noop Part001.blankNameState
    { usersFetch := FetchRes.ok, joinFetch := FetchRes.ok, createFetch := FetchRes.ok,
      createdSessionId := "S", now := 5 }
    Part001.blankPromptState { genFetch := FetchRes.networkError, blobUrl := "" }
    BattleMock.blankNameState 5 BattleMock.blankPromptState
    (by decide) (by decide) (by decide) (by decide)

/-- C2: participant ids stay pairwise distinct in the displayed roster of the
part_001 screen under every event (so any sequence of `user_joined_session`
events, duplicates included, leaves at most one entry per id), and the same
de-duplication holds for part_002's `realParticipants` under any sequence of
`user_joined_session` events. -/
theorem c2_roster_ids_unique_and_preserved
    (s : Part001.State) (es : List Part001.Event) (h : Part001.uniqIds s)
    (s2 : Part002.State) (joins : List String) (h2 : s2.realParticipants.Nodup) :
    Part001.uniqIds (Part001.run es s) ∧
    (∀ uid, countWithId (Part001.run es s).participants uid ≤ 1) ∧
    (Part002.runUserJoined joins s2).realParticipants.Nodup ∧
    (∀ uid, countOf (Part002.runUserJoined joins s2).realParticipants uid ≤ 1) := by
  have hu := part001_uniq_run es s h
  have hv := part002_userJoined_fold_nodup joins s2 h2
  refine ⟨hu, fun uid => ?_, hv, fun uid => ?_⟩
  · exact length_filter_key_le_one Participant.id uid hu
  · have hm : (((Part002.runUserJoined joins s2).realParticipants).map
        (id : String → String)).Nodup := by
      rw [List.map_id]
      exact hv
    exact length_filter_key_le_one (id : String → String) uid hm

/-- Witness for C2: two duplicated joins of `u7` leave a single `u7` entry. -/
theorem c2_witness :
    Part001.uniqIds (Part001.run Part001.dupJoinEvents Part001.baseState) ∧
    countWithId (Part001.run Part001.dupJoinEvents Part001.baseState).participants "u7" ≤ 1 ∧
    (Part002.runUserJoined ["u7", "u7"] Part002.baseState).realParticipants.Nodup ∧
    countOf (Part002.runUserJoined ["u7", "u7"] Part002.baseState).realParticipants "u7" ≤ 1 := by
  have h := c2_roster_ids_unique_and_preserved Part001.baseState Part001.dupJoinEvents
    (by simp [Part001.uniqIds, Part001.baseState, Part001.initState])
    Part002.baseState ["u7", "u7"]
    (by simp [Part002.baseState, Part002.initState])
  exact ⟨h.1, h.2.1 "u7", h.2.2.1, h.2.2.2 "u7"⟩

/-- C3: when the generate-character request fails (rejected fetch or non-ok
response) under a non-blank trimmed prompt in the `prompt` state, the handler
still moves the view to `waiting` and stores the non-null placeholder image;
the mock screen's handler does so unconditionally. -/
theorem c3_generate_failure_still_reaches_waiting
    (s1 : Part001.State) (env1 : Part001.GenEnv)
    (s2 : Part002.State) (env2 : Part002.GenEnv) (m : BattleMock.State)
    (hg1 : s1.gameState = GameState.prompt) (hp1 : jsTrim s1.prompt ≠ "")
    (hf1 : env1.genFetch ≠ FetchRes.ok)
    (hg2 : s2.gameState = GameState.prompt) (hp2 : jsTrim s2.prompt ≠ "")
    (hf2 : env2.genFetch ≠ FetchRes.ok)
    (hm : jsTrim m.prompt ≠ "") :
    (Part001.handleCreateCharacter env1 s1).1.gameState = GameState.waiting ∧
    (Part001.handleCreateCharacter env1 s1).1.generatedImage = some placeholderImage ∧
    (Part002.handleCreateCharacter env2 s2).1.gameState = GameState.waiting ∧
    (Part002.handleCreateCharacter env2 s2).1.generatedImage = some placeholderImage ∧
    (BattleMock.handleCreateCharacter m).gameState = GameState.waiting ∧
    (BattleMock.handleCreateCharacter m).generatedImage = some placeholderImage := by
  obtain ⟨gf1, bu1⟩ := env1
  obtain ⟨gf2, ib2⟩ := env2
  refine ⟨?_, ?_, ?_, ?_, ?_, ?_⟩
  · rw [part001_create_state, if_neg hp1]
  · rw [part001_create_state, if_neg hp1]
    cases gf1 with
    | ok => exact absurd rfl hf1
    | httpError => rfl
    | networkError => rfl
  · rw [part002_create_state, if_neg hp2]
  · rw [part002_create_state, if_neg hp2]
    cases gf2 with
    | ok => exact absurd rfl hf2
    | httpError => rfl
    | networkError => rfl
  · unfold BattleMock.handleCreateCharacter
    rw [if_neg hm]
  · unfold BattleMock.handleCreateCharacter
    rw [if_neg hm]

/-- Witness for C3 at concrete prompt-state screens and a rejected fetch. -/
theorem c3_witness :
    (Part001.handleCreateCharacter { genFetch := FetchRes.networkError, blobUrl := "" }
        Part001.samplePromptState).1.gameState = GameState.waiting ∧
    (Part001.handleCreateCharacter { genFetch := FetchRes.networkError, blobUrl := "" }
        Part001.samplePromptState).1.generatedImage = some placeholderImage ∧
    (Part002.handleCreateCharacter { genFetch := FetchRes.httpError, image_base64 := "" }
        Part002.samplePromptState).1.gameState = GameState.waiting ∧
    (Part002.handleCreateCharacter { genFetch := FetchRes.httpError, image_base64 := "" }
        Part002.samplePromptState).1.generatedImage = some placeholderImage ∧
    (BattleMock.handleCreateCharacter BattleMock.samplePromptState).gameState =
      GameState.waiting ∧
    (BattleMock.handleCreateCharacter BattleMock.samplePromptState).generatedImage =
      some placeholderImage :=
  c3_generate_failure_still_reaches_waiting
    Part001.samplePromptState { genFetch := FetchRes.networkError, blobUrl := "" }
    Part002.samplePromptState { genFetch := FetchRes.httpError, image_base64 := "" }
    BattleMock.samplePromptState
    (by decide) (by decide) (by decide) (by decide) (by decide) (by decide) (by decide)

/-- C4 counterexample: in a concrete `results` state of the part_001 screen, a
server-pushed `round_start` event moves the view to `prompt`, so `results` is
not terminal under server pushes. -/
theorem c4_counterexample :
    Part001.sampleResultsState.gameState = GameState.results ∧
    (Part001.step Part001.Event.roundStart Part001.sampleResultsState).gameState =
      GameState.prompt ∧
    GameState.prompt ≠ GameState.results :=
  ⟨rfl, rfl, by decide⟩

/-- C4 (amended): once `gameState` is `results`, no user action available in the
results view and no server push other than `round_start` / `battle_start`
changes the view state (the only offered exit is the Play Again navigation),
but a `round_start` push moves the screen to `prompt` and a `battle_start`
push moves it to `battle`, in both WebSocket screens. -/
theorem c4_results_exits_only_on_round_or_battle_start
    (s : Part001.State) (h : s.gameState = GameState.results)
    (s2 : Part002.State) (h2 : s2.gameState = GameState.results) :
    Part001.step Part001.Event.allCharactersReady s = s ∧
    (∀ u n t, (Part001.step (Part001.Event.userJoined u n t) s).gameState = GameState.results) ∧
    (∀ u, (Part001.step (Part001.Event.userLeft u) s).gameState = GameState.results) ∧
    (∀ ids t,
      (Part001.step (Part001.Event.sessionParticipants ids t) s).gameState = GameState.results) ∧
    (Part001.step Part001.Event.socketError s).gameState = GameState.results ∧
    Part001.step Part001.Event.lobbyRosterEffect s = s ∧
    (Part001.step Part001.Event.connected s).gameState = GameState.results ∧
    Part001.step Part001.Event.tick s = s ∧
    (Part001.step Part001.Event.roundStart s).gameState = GameState.prompt ∧
    (Part001.step Part001.Event.battleStart s).gameState = GameState.battle ∧
    Part002.step Part002.Event.tick s2 = s2 ∧
    (∀ t, Part002.step (Part002.Event.rosterEffect t) s2 = s2) ∧
    (∀ u, (Part002.step (Part002.Event.userJoined u) s2).gameState = GameState.results) ∧
    (∀ u, (Part002.step (Part002.Event.userLeft u) s2).gameState = GameState.results) ∧
    (Part002.step Part002.Event.roundStart s2).gameState = GameState.prompt ∧
    (Part002.step Part002.Event.battleStart s2).gameState = GameState.battle := by
  refine ⟨?_, ?_, ?_, ?_, ?_, ?_, ?_, ?_, rfl, rfl, ?_, ?_, ?_, ?_, rfl, rfl⟩
  · simp [Part001.step, Part001.handleAllCharactersReady, h]
  · intro u n t
    simp only [Part001.step, Part001.handleUserJoined]
    split <;> exact h
  · intro u
    exact h
  · intro ids t
    exact h
  · exact h
  · simp only [Part001.step, Part001.lobbyEffect, h]
  · exact h
  · rfl
  · simp [Part002.step, Part002.tick, h2]
  · intro t
    simp [Part002.step, Part002.participantsEffect, h2]
  · intro u
    exact h2
  · intro u
    exact h2

/-- Witness for C4 (amended) at the concrete `results` states. -/
theorem c4_witness :
    (Part001.step Part001.Event.roundStart Part001.sampleResultsState).gameState =
      GameState.prompt ∧
    (Part001.step Part001.Event.battleStart Part001.sampleResultsState).gameState =
      GameState.battle ∧
    Part001.step Part001.Event.tick Part001.sampleResultsState = Part001.sampleResultsState ∧
    Part002.step Part002.Event.tick Part002.sampleResultsState = Part002.sampleResultsState ∧
    (Part002.step Part002.Event.roundStart Part002.sampleResultsState).gameState =
      GameState.prompt := by
  obtain ⟨-, -, -, -, -, -, -, ht1, hr1, hb1, ht2, -, -, -, hr2, -⟩ :=
    c4_results_exits_only_on_round_or_battle_start
      Part001.sampleResultsState rfl Part002.sampleResultsState rfl
  exact ⟨hr1, hb1, ht1, ht2, hr2⟩

/-- C5 counterexample: not every version of the session screen offers both
lobby exits. On the part_001 screen a timer tick in a concrete lobby state is
a no-op (that component registers no countdown), and on the mock screen a
server `round_start` push in a concrete lobby state is a no-op (that component
registers no WebSocket handlers). -/
theorem c5_counterexample :
    Part001.sampleLobbyState.gameState = GameState.lobby ∧
    Part001.step Part001.Event.tick Part001.sampleLobbyState = Part001.sampleLobbyState ∧
    BattleMock.sampleLobbyState.gameState = GameState.lobby ∧
    BattleMock.step BattleMock.Event.roundStart BattleMock.sampleLobbyState =
      BattleMock.sampleLobbyState :=
  ⟨rfl, rfl, rfl, rfl⟩

/-- C5 (amended): the lobby exits to `prompt` are the local countdown reaching
zero and the server `round_start` push, but only part_002 offers both:
part_001 reacts to `round_start` only (ticks are no-ops there), and the mock
screen reacts to its countdown only (`round_start` is a no-op there). -/
theorem c5_lobby_exits_per_version
    (s1 : Part001.State) (s2 : Part002.State) (m : BattleMock.State)
    (h2a : s2.gameState = GameState.lobby) (h2b : s2.battleStartTimer = 0)
    (hma : m.gameState = GameState.lobby) (hmb : m.battleStartTimer = 0) :
    (Part001.step Part001.Event.roundStart s1).gameState = GameState.prompt ∧
    Part001.step Part001.Event.tick s1 = s1 ∧
    (Part002.step Part002.Event.roundStart s2).gameState = GameState.prompt ∧
    (Part002.step Part002.Event.tick s2).gameState = GameState.prompt ∧
    (BattleMock.step BattleMock.Event.tick m).gameState = GameState.prompt ∧
    BattleMock.step BattleMock.Event.roundStart m = m := by
  refine ⟨rfl, rfl, rfl, ?_, ?_, rfl⟩
  · simp [Part002.step, Part002.tick, h2a, h2b]
  · simp [BattleMock.step, BattleMock.tick, hma, hmb]

/-- Witness for C5 (amended) at concrete lobby states with expired countdowns. -/
theorem c5_witness :
    (Part001.step Part001.Event.roundStart Part001.sampleLobbyState).gameState =
      GameState.prompt ∧
    Part001.step Part001.Event.tick Part001.sampleLobbyState = Part001.sampleLobbyState ∧
    (Part002.step Part002.Event.roundStart Part002.sampleLobbyZero).gameState =
      GameState.prompt ∧
    (Part002.step Part002.Event.tick Part002.sampleLobbyZero).gameState = GameState.prompt ∧
    (BattleMock.step BattleMock.Event.tick BattleMock.sampleLobbyZero).gameState =
      GameState.prompt ∧
    BattleMock.step BattleMock.Event.roundStart BattleMock.sampleLobbyZero =
      BattleMock.sampleLobbyZero :=
  c5_lobby_exits_per_version Part001.sampleLobbyState Part002.sampleLobbyZero
    BattleMock.sampleLobbyZero rfl rfl rfl rfl

/-- C6: the landing join form navigates to `/battle/` plus the uppercased code
exactly when the entered code has six characters; any shorter code leaves the
Join button disabled and the handler returns without navigating. -/
theorem c6_join_navigates_iff_six_chars (code : String) :
    (Landing.handleJoinSession code = some ("/battle/" ++ code.toUpper) ↔
      code.length = 6) ∧
    (code.length < 6 →
      (∀ j : Bool, Landing.joinDisabled code j = true) ∧
      Landing.handleJoinSession code = none) := by
  constructor
  · constructor
    · intro hnav
      by_contra hne
      unfold Landing.handleJoinSession at hnav
      rw [if_pos hne] at hnav
      exact Option.noConfusion hnav
    · intro h6
      unfold Landing.handleJoinSession
      rw [if_neg (fun hne => hne h6)]
  · intro hlt
    have hne : code.length ≠ 6 := Nat.ne_of_lt hlt
    constructor
    · intro j
      unfold Landing.joinDisabled
      rw [Bool.or_eq_true]
      exact Or.inl (bne_iff_ne.mpr hne)
    · unfold Landing.handleJoinSession
      rw [if_pos hne]

/-- Witness for C6: a six-character code navigates uppercased, a three-character
code is rejected with the button disabled. -/
theorem c6_witness :
    Landing.handleJoinSession "abc123" = some ("/battle/" ++ "abc123".toUpper) ∧
    Landing.joinDisabled "ab1" false = true ∧
    Landing.handleJoinSession "ab1" = none := by
  refine ⟨?_, ?_, ?_⟩
  · exact (c6_join_navigates_iff_six_chars "abc123").1.mpr (by decide)
  · exact ((c6_join_navigates_iff_six_chars "ab1").2 (by decide)).1 false
  · exact ((c6_join_navigates_iff_six_chars "ab1").2 (by decide)).2

/-- C7: the REST-calling public handlers never surface an error. For every
fetch outcome, the landing create handler still navigates (on failure, to the
locally generated uppercased random code), both join handlers still end in the
`lobby` state with the optimistic current player set, and both generate
handlers on failure still end in `waiting` with the placeholder image. -/
theorem c7_rest_failures_masked_with_fallbacks
    (envC : Landing.CreateEnv)
    (env1 : Part001.JoinEnv) (s1 : Part001.State)
    (env2 : Part002.JoinEnv) (s2 : Part002.State)
    (envG1 : Part001.GenEnv) (t1 : Part001.State)
    (envG2 : Part002.GenEnv) (t2 : Part002.State)
    (hc : envC.createFetch ≠ FetchRes.ok)
    (h1 : jsTrim s1.playerName ≠ "") (h2 : jsTrim s2.playerName ≠ "")
    (hg1 : jsTrim t1.prompt ≠ "") (hgf1 : envG1.genFetch ≠ FetchRes.ok)
    (hg2 : jsTrim t2.prompt ≠ "") (hgf2 : envG2.genFetch ≠ FetchRes.ok) :
    Landing.handleCreateSession envC = "/battle/" ++ envC.randomCode.toUpper ∧
    (Part001.handleJoinSession env1 s1).1.gameState = GameState.lobby ∧
    (Part001.handleJoinSession env1 s1).1.currentPlayer =
      some { id := s1.userId, name := jsTrim s1.playerName, joinedAt := env1.now } ∧
    (Part002.handleJoinSession env2 s2).1.gameState = GameState.lobby ∧
    (Part002.handleJoinSession env2 s2).1.currentPlayer =
      some { id := s2.userId, name := jsTrim s2.playerName, joinedAt := env2.now } ∧
    (Part001.handleCreateCharacter envG1 t1).1.gameState = GameState.waiting ∧
    (Part001.handleCreateCharacter envG1 t1).1.generatedImage = some placeholderImage ∧
    (Part002.handleCreateCharacter envG2 t2).1.gameState = GameState.waiting ∧
    (Part002.handleCreateCharacter envG2 t2).1.generatedImage = some placeholderImage := by
  obtain ⟨cf, sidC, rc⟩ := envC
  obtain ⟨gf1, bu1⟩ := envG1
  obtain ⟨gf2, ib2⟩ := envG2
  refine ⟨?_, ?_, ?_, ?_, ?_, ?_, ?_, ?_, ?_⟩
  · cases cf with
    | ok => exact absurd rfl hc
    | httpError => rfl
    | networkError => rfl
  · rw [part001_join_state, if_neg h1]
    rfl
  · rw [part001_join_state, if_neg h1]
    rfl
  · rw [part002_join_state, if_neg h2]
    rfl
  · rw [part002_join_state, if_neg h2]
    rfl
  · rw [part001_create_state, if_neg hg1]
  · rw [part001_create_state, if_neg hg1]
    cases gf1 with
    | ok => exact absurd rfl hgf1
    | httpError => rfl
    | networkError => rfl
  · rw [part002_create_state, if_neg hg2]
  · rw [part002_create_state, if_neg hg2]
    cases gf2 with
    | ok => exact absurd rfl hgf2
    | httpError => rfl
    | networkError => rfl

/-- Witness for C7 at concrete failing fetches and non-blank inputs. -/
theorem c7_witness :
    Landing.handleCreateSession
        { createFetch := FetchRes.networkError, serverSessionId := "S1", randomCode := "abc1x2" } =
      "/battle/" ++ ("abc1x2" : String).toUpper ∧
    (Part001.handleJoinSession
        { usersFetch := FetchRes.networkError, joinFetch := FetchRes.networkError,
          createFetch := FetchRes.networkError, createdSessionId := "", now := 9 }
        Part001.namedJoinState).1.gameState = GameState.lobby ∧
    (Part001.handleJoinSession
        { usersFetch := FetchRes.networkError, joinFetch := FetchRes.networkError,
          createFetch := FetchRes.networkError, createdSessionId := "", now := 9 }
        Part001.namedJoinState).1.currentPlayer =
      some { id := Part001.namedJoinState.userId,
             name := jsTrim Part001.namedJoinState.playerName, joinedAt := 9 } ∧
    (Part002.handleJoinSession
        { usersFetch := FetchRes.ok, putFetch := FetchRes.httpError,
          createFetch := FetchRes.ok, now := 9 }
        Part002.namedJoinState).1.gameState = GameState.lobby ∧
    (Part002.handleJoinSession
        { usersFetch := FetchRes.ok, putFetch := FetchRes.httpError,
          createFetch := FetchRes.ok, now := 9 }
        Part002.namedJoinState).1.currentPlayer =
      some { id := Part002.namedJoinState.userId,
             name := jsTrim Part002.namedJoinState.playerName, joinedAt := 9 } ∧
    (Part001.handleCreateCharacter { genFetch := FetchRes.httpError, blobUrl := "" }
        Part001.samplePromptState).1.gameState = GameState.waiting ∧
    (Part001.handleCreateCharacter { genFetch := FetchRes.httpError, blobUrl := "" }
        Part001.samplePromptState).1.generatedImage = some placeholderImage ∧
    (Part002.handleCreateCharacter { genFetch := FetchRes.networkError, image_base64 := "" }
        Part002.samplePromptState).1.gameState = GameState.waiting ∧
    (Part002.handleCreateCharacter { genFetch := FetchRes.networkError, image_base64 := "" }
        Part002.samplePromptState).1.generatedImage = some placeholderImage :=
  c7_rest_failures_masked_with_fallbacks
    { createFetch := FetchRes.networkError, serverSessionId := "S1", randomCode := "abc1x2" }
    { usersFetch := FetchRes.networkError, joinFetch := FetchRes.networkError,
      createFetch := FetchRes.networkError, createdSessionId := "", now := 9 }
    Part001.namedJoinState
    { usersFetch := FetchRes.ok, putFetch := FetchRes.httpError,
      createFetch := FetchRes.ok, now := 9 }
    Part002.namedJoinState
    { genFetch := FetchRes.httpError, blobUrl := "" } Part001.samplePromptState
    { genFetch := FetchRes.networkError, image_base64 := "" } Part002.samplePromptState
    (by decide) (by decide) (by decide) (by decide) (by decide) (by decide) (by decide)

/-- C8: in every state of the WebSocket screens reachable from a fresh mount by
any event sequence, `gameState = results` implies `battleResults` is non-null,
and the results view renders only when `battleResults` is non-null. -/
theorem c8_results_state_has_battle_results
    (u1 : String) (p1 : RouteParam) (es1 : List Part001.Event)
    (u2 : String) (p2 : RouteParam) (es2 : List Part002.Event) :
    ((Part001.run es1 (Part001.initState u1 p1)).gameState = GameState.results →
      (Part001.run es1 (Part001.initState u1 p1)).battleResults.isSome = true) ∧
    ((Part002.run es2 (Part002.initState u2 p2)).gameState = GameState.results →
      (Part002.run es2 (Part002.initState u2 p2)).battleResults.isSome = true) ∧
    (∀ s : Part001.State, s.battleResults = none → Part001.renderedBattleSummary s = none) ∧
    (∀ s : Part002.State, s.battleResults = none → Part002.renderedBattleSummary s = none) := by
  refine ⟨part001_inv_run es1 _ ?_, part002_inv_run es2 _ ?_, ?_, ?_⟩
  · simp [Part001.initState]
  · simp [Part002.initState]
  · intro s hbr
    cases hg : s.gameState <;> simp [Part001.renderedBattleSummary, hbr, hg]
  · intro s hbr
    cases hg : s.gameState <;> simp [Part002.renderedBattleSummary, hbr, hg]

/-- Witness for C8: delivering one `results` event from a fresh mount lands in
a state with a non-null `battleResults`. -/
theorem c8_witness :
    (Part001.run
        [Part001.Event.results { winner_user_id := "w", battle_script := "b", battle_summary := "s" }]
        (Part001.initState "u" (RouteParam.str "S"))).battleResults.isSome = true ∧
    (Part002.run
        [Part002.Event.results { winner_user_id := "w", battle_script := "b", battle_summary := "s" }]
        (Part002.initState "u" (RouteParam.str "S"))).battleResults.isSome = true := by
  have h := c8_results_state_has_battle_results "u" (RouteParam.str "S")
    [Part001.Event.results { winner_user_id := "w", battle_script := "b", battle_summary := "s" }]
    "u" (RouteParam.str "S")
    [Part002.Event.results { winner_user_id := "w", battle_script := "b", battle_summary := "s" }]
  exact ⟨h.1 rfl, h.2.1 rfl⟩
